import Mathlib

/-!
Shallow embedding of the usrp-go repository: the USRP wire codec
(pkg/usrp/protocol.go and the marshal/unmarshal file) and the audio
routing hub (cmd/discord-bridge/main.go).  Byte strings are `List Nat`
with each element below 256; Go's fixed-width integers are `Nat`
(resp. `Int` for `int16` samples and priorities) with explicit range
invariants where the Go type matters.
-/

/-- Protocol constant `HeaderSize = 32`. -/
def headerSize : Nat := 32

/-- Protocol constant `VoiceFrameSize = 160`. -/
def voiceFrameSize : Nat := 160

/-- The 4-byte magic string "USRP" (`USRPMagic`). -/
def usrpMagic : List Nat := [85, 83, 82, 80]

/-- Big-endian encoding of a `uint32`, as written by `binary.Write(buf, binary.BigEndian, v)`. -/
def be32 (n : Nat) : List Nat :=
  [n / 2 ^ 24 % 256, n / 2 ^ 16 % 256, n / 2 ^ 8 % 256, n % 256]

/-- Big-endian encoding of a `uint16` (used for TLV item lengths). -/
def be16 (n : Nat) : List Nat := [n / 2 ^ 8 % 256, n % 256]

/-- Two's-complement reading of a 16-bit unsigned value as Go's `int16`. -/
def toInt16 (u : Nat) : Int :=
  if u % 65536 < 32768 then ((u % 65536 : Nat) : Int) else ((u % 65536 : Nat) : Int) - 65536

/-- Go's `int16(b0) | int16(b1)<<8`: little-endian decoding of two bytes into an `int16`. -/
def int16OfLE (b0 b1 : Nat) : Int := toInt16 (b0 + 256 * b1)

/-- Little-endian encoding of an `int16` sample, as written by
`binary.Write(buf, binary.LittleEndian, sample)`. -/
def le16 (s : Int) : List Nat :=
  [(s % 65536).toNat % 256, (s % 65536).toNat / 256]

/-- Big-endian `uint32` read at offset `i` of a byte string. -/
def beAt (data : List Nat) (i : Nat) : Nat :=
  ((data.getD i 0 * 256 + data.getD (i + 1) 0) * 256 + data.getD (i + 2) 0) * 256
    + data.getD (i + 3) 0

/-- The 32-byte USRP `Header` struct (`Eye`, then seven `uint32` fields). -/
structure Header where
  eye : List Nat
  seq : Nat
  memory : Nat
  keyup : Nat
  talkGroup : Nat
  type : Nat
  mpxID : Nat
  reserved : Nat
  deriving Repr, DecidableEq

/-- Well-formedness of a header as a Go value: the magic is set and every
`uint32` field is within its type's range. -/
def Header.wf (h : Header) : Prop :=
  h.eye = usrpMagic ∧ h.seq < 2 ^ 32 ∧ h.memory < 2 ^ 32 ∧ h.keyup < 2 ^ 32 ∧
    h.talkGroup < 2 ^ 32 ∧ h.type < 2 ^ 32 ∧ h.mpxID < 2 ^ 32 ∧ h.reserved < 2 ^ 32

instance (h : Header) : Decidable h.wf := by unfold Header.wf; infer_instance

/-- The header bytes written by every `Marshal`: `Eye` then the seven fields big-endian. -/
def marshalHeader (h : Header) : List Nat :=
  h.eye ++ be32 h.seq ++ be32 h.memory ++ be32 h.keyup ++ be32 h.talkGroup ++
    be32 h.type ++ be32 h.mpxID ++ be32 h.reserved

/-- The header reads performed by every `Unmarshal` on input of length ≥ 32:
the 4 magic bytes, seven big-endian `uint32`s, and the remaining reader content. -/
def parseHeader (data : List Nat) : Header × List Nat :=
  (⟨data.take 4, beAt data 4, beAt data 8, beAt data 12, beAt data 16,
    beAt data 20, beAt data 24, beAt data 28⟩, data.drop 32)

/-- `NewHeader`: zero header with the magic copied in, and `Seq`/`Type` set. -/
def newHeader (packetType : Nat) (seq : Nat) : Header :=
  ⟨usrpMagic, seq, 0, 0, 0, packetType, 0, 0⟩

/-- The error outcomes of the codec, one constructor per distinct failure site. -/
inductive UsrpError where
  | dataTooShort
  | invalidMagic
  | insufficientAudio
  | truncatedTLV
  | invalidPacketType (t : Nat)
  | invalidDTMFDigit (d : Nat)
  deriving Repr, DecidableEq

/-- The spec's MalformedHeader error kind: the two header-stage rejections. -/
def UsrpError.isMalformedHeader : UsrpError → Prop
  | .dataTooShort => True
  | .invalidMagic => True
  | _ => False

/-- `VoiceMessage`: header plus 160 `int16` samples. -/
structure VoiceMessage where
  header : Header
  audioData : List Int
  deriving Repr, DecidableEq

/-- `DTMFMessage`: header plus one digit byte. -/
structure DTMFMessage where
  header : Header
  digit : Nat
  deriving Repr, DecidableEq

/-- `TextMessage`: header plus variable-length text bytes. -/
structure TextMessage where
  header : Header
  text : List Nat
  deriving Repr, DecidableEq

/-- `PingMessage`: header only. -/
structure PingMessage where
  header : Header
  deriving Repr, DecidableEq

/-- A `TLVItem`: one-byte tag, `uint16` length, value bytes. -/
structure TLVItem where
  tag : Nat
  length : Nat
  value : List Nat
  deriving Repr, DecidableEq

/-- `TLVMessage`: header plus a list of TLV items. -/
structure TLVMessage where
  header : Header
  tlvs : List TLVItem
  deriving Repr, DecidableEq

/-- `VoiceULawMessage`: header plus 160 µ-law bytes. -/
structure VoiceULawMessage where
  header : Header
  audioData : List Nat
  deriving Repr, DecidableEq

/-- `VoiceADPCMMessage`: header plus variable-length ADPCM bytes. -/
structure VoiceADPCMMessage where
  header : Header
  audioData : List Nat
  deriving Repr, DecidableEq

/-- `VoiceMessage.Marshal`: header big-endian, then the 160 samples little-endian. -/
def voiceMarshal (v : VoiceMessage) : List Nat :=
  marshalHeader v.header ++ (v.audioData.map le16).flatten

/-- The sample-reading loop of `VoiceMessage.Unmarshal`: `n` consecutive
little-endian `int16` reads. -/
def readInt16s : Nat → List Nat → List Int
  | 0, _ => []
  | n + 1, r => int16OfLE (r.getD 0 0) (r.getD 1 0) :: readInt16s n (r.drop 2)

/-- `VoiceMessage.Unmarshal` (fresh receiver): length check, header read,
magic validation, audio length check, 160 sample reads. -/
def voiceUnmarshal (data : List Nat) : Except UsrpError VoiceMessage :=
  if data.length < headerSize then .error .dataTooShort
  else
    let p := parseHeader data
    if p.1.eye ≠ usrpMagic then .error .invalidMagic
    else if data.length < headerSize + voiceFrameSize * 2 then .error .insufficientAudio
    else .ok ⟨p.1, readInt16s 160 p.2⟩

/-- `DTMFMessage.Marshal`: header then the digit byte. -/
def dtmfMarshal (d : DTMFMessage) : List Nat :=
  marshalHeader d.header ++ [d.digit]

/-- `DTMFMessage.Unmarshal` (fresh receiver): length check (≥ 33), header read,
magic validation, digit byte read.  No digit-set validation is performed. -/
def dtmfUnmarshal (data : List Nat) : Except UsrpError DTMFMessage :=
  if data.length < headerSize + 1 then .error .dataTooShort
  else
    let p := parseHeader data
    if p.1.eye ≠ usrpMagic then .error .invalidMagic
    else .ok ⟨p.1, p.2.getD 0 0⟩

/-- The digit test of `DTMFMessage.Validate`: `'0'..'9'`, `'A'..'D'`, `'*'`, `'#'`. -/
def isValidDTMFDigit (d : Nat) : Bool :=
  (48 ≤ d && d ≤ 57) || (65 ≤ d && d ≤ 68) || d == 42 || d == 35

/-- `DTMFMessage.Validate`: packet-type check, then the digit-set check. -/
def dtmfValidate (d : DTMFMessage) : Option UsrpError :=
  if d.header.type ≠ 1 then some (.invalidPacketType d.header.type)
  else if ¬ isValidDTMFDigit d.digit then some (.invalidDTMFDigit d.digit)
  else none

/-- `TextMessage.Marshal`: header then the raw text bytes. -/
def textMarshal (t : TextMessage) : List Nat :=
  marshalHeader t.header ++ t.text

/-- `TextMessage.Unmarshal` (fresh receiver): the remaining bytes become the text. -/
def textUnmarshal (data : List Nat) : Except UsrpError TextMessage :=
  if data.length < headerSize then .error .dataTooShort
  else
    let p := parseHeader data
    if p.1.eye ≠ usrpMagic then .error .invalidMagic
    else .ok ⟨p.1, p.2⟩

/-- `PingMessage.Marshal`: header only. -/
def pingMarshal (p : PingMessage) : List Nat :=
  marshalHeader p.header

/-- `PingMessage.Unmarshal` (fresh receiver). -/
def pingUnmarshal (data : List Nat) : Except UsrpError PingMessage :=
  if data.length < headerSize then .error .dataTooShort
  else
    let p := parseHeader data
    if p.1.eye ≠ usrpMagic then .error .invalidMagic
    else .ok ⟨p.1⟩

/-- One marshalled TLV item: tag byte, big-endian length, value bytes. -/
def tlvItemMarshal (it : TLVItem) : List Nat :=
  it.tag % 256 :: be16 it.length ++ it.value

/-- `TLVMessage.Marshal`: header then the concatenated items. -/
def tlvMarshal (m : TLVMessage) : List Nat :=
  marshalHeader m.header ++ (m.tlvs.map tlvItemMarshal).flatten

/-- The item-parsing loop of `TLVMessage.Unmarshal`: stops cleanly on fewer
than 3 remaining bytes, fails with `truncatedTLV` when a declared length
exceeds the remaining bytes, and accumulates parsed items in `acc`. -/
def parseTLVItems (r : List Nat) (acc : List TLVItem) : List TLVItem × Option UsrpError :=
  match r with
  | [] => (acc, none)
  | [_] => (acc, none)
  | [_, _] => (acc, none)
  | tag :: l0 :: l1 :: rest =>
    let len := l0 * 256 + l1
    if rest.length < len then (acc, some .truncatedTLV)
    else parseTLVItems (rest.drop len) (acc ++ [⟨tag, len, rest.take len⟩])
termination_by r.length
decreasing_by
  simp only [List.length_drop, List.length_cons]
  omega

/-- `TLVMessage.Unmarshal`, with the receiver made explicit: the header fields
are written into the receiver before validation; `TLVs` is reset to nil after
validation and then filled by the parsing loop, which may stop with an error
after partial progress. -/
def tlvUnmarshal (recv : TLVMessage) (data : List Nat) : TLVMessage × Option UsrpError :=
  if data.length < headerSize then (recv, some .dataTooShort)
  else
    let p := parseHeader data
    if p.1.eye ≠ usrpMagic then ({ recv with header := p.1 }, some .invalidMagic)
    else
      let q := parseTLVItems p.2 []
      (⟨p.1, q.1⟩, q.2)

/-- The zero value of `TLVMessage` (a fresh Go receiver). -/
def freshTLV : TLVMessage := ⟨⟨[0, 0, 0, 0], 0, 0, 0, 0, 0, 0, 0⟩, []⟩

/-- `VoiceULawMessage.Marshal`: header then the 160 µ-law bytes. -/
def ulawMarshal (u : VoiceULawMessage) : List Nat :=
  marshalHeader u.header ++ u.audioData

/-- `VoiceULawMessage.Unmarshal` (fresh receiver): length check (≥ 192),
header read, magic validation, 160-byte audio read. -/
def ulawUnmarshal (data : List Nat) : Except UsrpError VoiceULawMessage :=
  if data.length < headerSize + voiceFrameSize then .error .dataTooShort
  else
    let p := parseHeader data
    if p.1.eye ≠ usrpMagic then .error .invalidMagic
    else .ok ⟨p.1, p.2.take voiceFrameSize⟩

/-- `VoiceADPCMMessage.Marshal`: header then the raw ADPCM bytes. -/
def adpcmMarshal (a : VoiceADPCMMessage) : List Nat :=
  marshalHeader a.header ++ a.audioData

/-- `VoiceADPCMMessage.Unmarshal` (fresh receiver): the remaining bytes become
the audio data. -/
def adpcmUnmarshal (data : List Nat) : Except UsrpError VoiceADPCMMessage :=
  if data.length < headerSize then .error .dataTooShort
  else
    let p := parseHeader data
    if p.1.eye ≠ usrpMagic then .error .invalidMagic
    else .ok ⟨p.1, p.2⟩

/-- A frame of any of the seven USRP packet types. -/
inductive Frame where
  | voice (m : VoiceMessage)
  | dtmf (m : DTMFMessage)
  | text (m : TextMessage)
  | ping (m : PingMessage)
  | tlv (m : TLVMessage)
  | ulaw (m : VoiceULawMessage)
  | adpcm (m : VoiceADPCMMessage)
  deriving Repr, DecidableEq

/-- Well-formedness of one TLV item as a Go value: `Tag` is a `uint8`,
`Length` is a `uint16` equal to the value's length. -/
def TLVItem.wf (it : TLVItem) : Prop :=
  it.tag < 256 ∧ it.length < 2 ^ 16 ∧ it.length = it.value.length ∧ ∀ b ∈ it.value, b < 256

/-- A valid frame: well-formed header (magic set), payload of the shape the
Go struct types dictate (array lengths, byte and `int16` ranges, TLV item
lengths equal to value lengths). -/
def Frame.wf : Frame → Prop
  | .voice m => m.header.wf ∧ m.audioData.length = 160 ∧
      ∀ s ∈ m.audioData, -32768 ≤ s ∧ s < 32768
  | .dtmf m => m.header.wf ∧ m.digit < 256
  | .text m => m.header.wf ∧ ∀ b ∈ m.text, b < 256
  | .ping m => m.header.wf
  | .tlv m => m.header.wf ∧ ∀ it ∈ m.tlvs, it.wf
  | .ulaw m => m.header.wf ∧ m.audioData.length = 160 ∧ ∀ b ∈ m.audioData, b < 256
  | .adpcm m => m.header.wf ∧ ∀ b ∈ m.audioData, b < 256

/-- `Marshal` dispatched over the seven packet types. -/
def Frame.marshal : Frame → List Nat
  | .voice m => voiceMarshal m
  | .dtmf m => dtmfMarshal m
  | .text m => textMarshal m
  | .ping m => pingMarshal m
  | .tlv m => tlvMarshal m
  | .ulaw m => ulawMarshal m
  | .adpcm m => adpcmMarshal m

/-- The `Unmarshal` of a given packet type applied to a byte string, with a
fresh receiver, wrapped back into `Frame`. -/
def decodeAs (f : Frame) (data : List Nat) : Except UsrpError Frame :=
  match f with
  | .voice _ => (voiceUnmarshal data).map .voice
  | .dtmf _ => (dtmfUnmarshal data).map .dtmf
  | .text _ => (textUnmarshal data).map .text
  | .ping _ => (pingUnmarshal data).map .ping
  | .tlv _ =>
    match tlvUnmarshal freshTLV data with
    | (m, none) => .ok (.tlv m)
    | (_, some e) => .error e
  | .ulaw _ => (ulawUnmarshal data).map .ulaw
  | .adpcm _ => (adpcmUnmarshal data).map .adpcm

/-- Unmarshalling the bytes produced by marshalling, with the decoder of the
frame's own packet type and a fresh receiver. -/
def Frame.reDecode (f : Frame) : Except UsrpError Frame :=
  decodeAs f f.marshal

/-- The routing policy of a configured service (`ServiceInstance.Routing`). -/
structure RoutingPolicy where
  canSend : Bool
  canReceive : Bool
  sendToTypes : List String
  receiveFrom : List String
  excludeServices : List String
  priority : Int
  deriving Repr, DecidableEq

/-- A configured service endpoint (`ServiceInstance`), restricted to the
fields the routing decision reads.  `stype` is the `ServiceType` string. -/
structure ServiceInstance where
  id : String
  stype : String
  enabled : Bool
  routing : RoutingPolicy
  deriving Repr, DecidableEq

/-- The router configuration fields read by the hub path
(`AudioRouterConfig.Audio` and `.Routing`). -/
structure RouterConfig where
  maxConcurrentTx : Nat
  txTimeoutSeconds : Nat
  enablePriorityRules : Bool
  defaultRouting : String
  deriving Repr, DecidableEq

/-- An `AudioMessage` flowing through the router, restricted to the fields
the hub path reads.  `timestamp` is in seconds. -/
structure AudioMessage where
  sourceID : String
  data : List Nat
  format : String
  sequenceNum : Nat
  timestamp : Nat
  pttActive : Bool
  talkGroup : Nat
  routeToTypes : List String
  excludeIDs : List String
  priority : Int
  deriving Repr, DecidableEq

/-- `AudioRouter.shouldRoute`: the `default_routing` switch returns
immediately for the three recognised values; only otherwise are the
source-side, destination-side and message-level filters consulted. -/
def shouldRoute (cfg : RouterConfig) (source : Option ServiceInstance)
    (dest : ServiceInstance) (msg : AudioMessage) : Bool :=
  if cfg.defaultRouting == "all-to-all" then true
  else if cfg.defaultRouting == "hub-only" then false
  else if cfg.defaultRouting == "none" then false
  else if (match source with
           | some s => !s.routing.sendToTypes.isEmpty &&
               !s.routing.sendToTypes.contains dest.stype
           | none => false) then false
  else if !dest.routing.receiveFrom.isEmpty &&
      !dest.routing.receiveFrom.any (fun a =>
        match source with
        | some s => a == s.stype
        | none => false) then false
  else if !msg.routeToTypes.isEmpty && !msg.routeToTypes.contains dest.stype then false
  else true

/-- `AudioRouter.getRoutingDestinations`: the registry is a list of service
instances; the source is looked up by the message's source id, and each
candidate passes the enabled/can-receive, self, frame-exclusion and
service-exclusion checks before `shouldRoute`. -/
def getRoutingDestinations (cfg : RouterConfig) (services : List ServiceInstance)
    (msg : AudioMessage) : List ServiceInstance :=
  let source := services.find? (fun s => s.id == msg.sourceID)
  services.filter (fun dest =>
    dest.enabled && dest.routing.canReceive &&
    !(dest.id == msg.sourceID) &&
    !msg.excludeIDs.contains dest.id &&
    !(match source with
      | some s => s.routing.excludeServices.contains dest.id
      | none => false) &&
    shouldRoute cfg source dest msg)

/-- The expiry sweep of `manageTransmission`: drop entries older than
`tx_timeout_seconds`. -/
def sweepTx (cfg : RouterConfig) (now : Nat) (m : List (String × AudioMessage)) :
    List (String × AudioMessage) :=
  m.filter (fun e => !decide (now - e.2.timestamp > cfg.txTimeoutSeconds))

/-- Go map assignment `m[k] = v`: replace the entry if the key is present,
add it otherwise. -/
def setTx (m : List (String × AudioMessage)) (k : String) (v : AudioMessage) :
    List (String × AudioMessage) :=
  if m.any (fun e => e.1 == k) then m.map (fun e => if e.1 == k then (k, v) else e)
  else m ++ [(k, v)]

/-- `AudioRouter.manageTransmission`: sweep, then for a PTT-on frame the
concurrency-cap check with optional priority preemption, storing the message
under its source id on admission; for a PTT-off frame, deletion.  Returns the
new active-transmissions map and whether the frame was admitted. -/
def manageTransmission (cfg : RouterConfig) (now : Nat)
    (m : List (String × AudioMessage)) (msg : AudioMessage) :
    List (String × AudioMessage) × Bool :=
  let m := sweepTx cfg now m
  if msg.pttActive then
    if m.length ≥ cfg.maxConcurrentTx then
      if cfg.enablePriorityRules then
        if m.any (fun e => msg.priority > e.2.priority) then
          (setTx m msg.sourceID msg, true)
        else (m, false)
      else (m, false)
    else (setTx m msg.sourceID msg, true)
  else (m.filter (fun e => !(e.1 == msg.sourceID)), true)

/-- The hub counters touched by `routeAudioMessage`. -/
structure RouterStats where
  totalMessages : Nat
  routedMessages : Nat
  droppedMessages : Nat
  deriving Repr, DecidableEq

/-- `AudioRouter.routeAudioMessage`: counts the frame, consults the
transmission table (dropping on rejection), computes destinations, and
dispatches; `sendOk` abstracts the per-destination network send. -/
def routeAudioMessage (cfg : RouterConfig) (services : List ServiceInstance)
    (now : Nat) (txs : List (String × AudioMessage)) (stats : RouterStats)
    (sendOk : ServiceInstance → Bool) (msg : AudioMessage) :
    List (String × AudioMessage) × RouterStats :=
  let stats := { stats with totalMessages := stats.totalMessages + 1 }
  let r := manageTransmission cfg now txs msg
  if !r.2 then
    (r.1, { stats with droppedMessages := stats.droppedMessages + 1 })
  else
    let dests := getRoutingDestinations cfg services msg
    if dests.isEmpty then (r.1, stats)
    else if (dests.filter sendOk).length > 0 then
      (r.1, { stats with routedMessages := stats.routedMessages + 1 })
    else
      (r.1, { stats with droppedMessages := stats.droppedMessages + 1 })

/-- The sample-fill step of `sendToUSRPService` for a pcm frame: the 160-entry
sample array starts zeroed and is filled from the payload only when the
payload has at least 320 bytes. -/
def pcmToVoiceSamples (data : List Nat) : List Int :=
  (List.range 160).map (fun i =>
    if 320 ≤ data.length ∧ 2 * i + 1 < data.length then
      int16OfLE (data.getD (2 * i) 0) (data.getD (2 * i + 1) 0)
    else 0)

/-- The VOICE frame built by `sendToUSRPService` for a pcm frame:
`NewHeader(USRP_TYPE_VOICE, msg.SequenceNum)`, `SetPTT`, talkgroup, and the
sample fill. -/
def sendToUSRPVoice (msg : AudioMessage) : VoiceMessage :=
  { header := { newHeader 0 msg.sequenceNum with
                  keyup := if msg.pttActive then 1 else 0
                  talkGroup := msg.talkGroup }
    audioData := pcmToVoiceSamples msg.data }

/-- The independent byte-level description of the TLV items that lie complete
at the head of a payload: items are read greedily until the bytes run out,
fewer than 3 header bytes remain, or an item's declared length exceeds the
remaining bytes. -/
def completeTLVItems (r : List Nat) : List TLVItem :=
  match r with
  | tag :: l0 :: l1 :: rest =>
    let len := l0 * 256 + l1
    if rest.length < len then []
    else ⟨tag, len, rest.take len⟩ :: completeTLVItems (rest.drop len)
  | _ => []
termination_by r.length
decreasing_by
  simp only [List.length_drop, List.length_cons]
  omega

set_option maxRecDepth 40000

theorem marshalHeader_length (h : Header) (he : h.eye = usrpMagic) :
    (marshalHeader h).length = 32 := by
  simp [marshalHeader, be32, he, usrpMagic]

theorem parseHeader_marshal (h : Header) (hw : h.wf) (rest : List Nat) :
    parseHeader (marshalHeader h ++ rest) = (h, rest) := by
  obtain ⟨eye, s, m, k, t, y, x, r⟩ := h
  obtain ⟨he, h1, h2, h3, h4, h5, h6, h7⟩ := hw
  simp only [Header.eye] at he
  subst he
  simp only [marshalHeader, be32, usrpMagic, List.cons_append, List.nil_append,
    List.append_assoc]
  simp only [parseHeader, beAt, List.getD_cons_succ, List.getD_cons_zero,
    List.take_succ_cons, List.take_zero, List.drop_succ_cons, List.drop_zero,
    Prod.mk.injEq, Header.mk.injEq, Header.seq, Header.memory, Header.keyup,
    Header.talkGroup, Header.type, Header.mpxID, Header.reserved]
  simp only [Header.seq, Header.memory, Header.keyup, Header.talkGroup,
    Header.type, Header.mpxID, Header.reserved] at h1 h2 h3 h4 h5 h6 h7
  repeat' apply And.intro
  all_goals first | rfl | trivial | omega

theorem int16OfLE_le16 (s : Int) (h0 : -32768 ≤ s) (h1 : s < 32768) :
    int16OfLE ((s % 65536).toNat % 256) ((s % 65536).toNat / 256) = s := by
  unfold int16OfLE toInt16
  omega

theorem readInt16s_flatten (l : List Int) (hl : ∀ s ∈ l, -32768 ≤ s ∧ s < 32768) :
    readInt16s l.length (l.map le16).flatten = l := by
  induction l with
  | nil => rfl
  | cons s t ih =>
    have hs := hl s (List.mem_cons_self s t)
    have rest := ih (fun a ha => hl a (List.mem_cons_of_mem s ha))
    simp only [List.length_cons, List.map_cons, List.flatten_cons, le16,
      List.cons_append, List.nil_append]
    rw [readInt16s]
    simp only [List.getD_cons_zero, List.getD_cons_succ, List.drop_succ_cons,
      List.drop_zero]
    rw [int16OfLE_le16 s hs.1 hs.2, rest]

theorem le16_flatten_length (l : List Int) : ((l.map le16).flatten).length = 2 * l.length := by
  induction l with
  | nil => rfl
  | cons s t ih =>
    simp only [List.map_cons, List.flatten_cons, List.length_append, le16,
      List.length_cons, List.length_nil, ih]
    omega

theorem parseTLVItems_marshal (items : List TLVItem) (hw : ∀ it ∈ items, it.wf)
    (acc : List TLVItem) :
    parseTLVItems ((items.map tlvItemMarshal).flatten) acc = (acc ++ items, none) := by
  induction items generalizing acc with
  | nil => simp [parseTLVItems]
  | cons it t ih =>
    obtain ⟨htag, hlen, hval, _⟩ := hw it (List.mem_cons_self it t)
    have ht := fun a ha => hw a (List.mem_cons_of_mem it ha)
    simp only [List.map_cons, List.flatten_cons, tlvItemMarshal, be16,
      List.cons_append, List.nil_append, List.append_assoc]
    rw [parseTLVItems]
    have hdec : it.length / 2 ^ 8 % 256 * 256 + it.length % 256 = it.length := by omega
    simp only [hdec]
    rw [if_neg (by simp [List.length_append, ← hval])]
    rw [List.take_append_of_le_length (by omega), List.drop_append_of_le_length (by omega)]
    rw [show it.value.take it.length = it.value by rw [hval]; exact List.take_length _]
    rw [show it.value.drop it.length = [] by rw [hval]; exact List.drop_length _]
    simp only [List.nil_append]
    rw [show it.tag % 256 = it.tag from Nat.mod_eq_of_lt htag]
    rw [show (⟨it.tag, it.length, it.value⟩ : TLVItem) = it from rfl]
    rw [ih ht]
    simp

theorem parseTLVItems_error_aux (n : Nat) : ∀ (r : List Nat), r.length ≤ n →
    ∀ (acc : List TLVItem) (e : UsrpError), (parseTLVItems r acc).2 = some e →
    (parseTLVItems r acc).1 = acc ++ completeTLVItems r ∧ e = .truncatedTLV := by
  induction n with
  | zero =>
    intro r hr acc e he
    rw [List.length_eq_zero.mp (Nat.le_zero.mp hr)] at he
    simp [parseTLVItems] at he
  | succ n ih =>
    intro r hr acc e he
    rcases r with _ | ⟨tag, _ | ⟨l0, _ | ⟨l1, rest⟩⟩⟩
    · simp [parseTLVItems] at he
    · simp [parseTLVItems] at he
    · simp [parseTLVItems] at he
    · rw [parseTLVItems] at he ⊢
      rw [completeTLVItems]
      by_cases hc : rest.length < l0 * 256 + l1
      · rw [if_pos hc] at he ⊢
        rw [if_pos hc]
        simp only [Option.some.injEq] at he
        simp [← he]
      · rw [if_neg hc] at he ⊢
        rw [if_neg hc]
        have hlen : (rest.drop (l0 * 256 + l1)).length ≤ n := by
          simp only [List.length_drop]
          simp only [List.length_cons] at hr
          omega
        have := ih _ hlen _ _ he
        simp [this.1, this.2]

theorem parseTLVItems_error (r : List Nat) (acc : List TLVItem) (e : UsrpError)
    (he : (parseTLVItems r acc).2 = some e) :
    (parseTLVItems r acc).1 = acc ++ completeTLVItems r ∧ e = .truncatedTLV :=
  parseTLVItems_error_aux r.length r (Nat.le_refl _) acc e he

/-- C1: for every one of the seven USRP packet types and every valid frame
`f` of that type (magic set to "USRP", TLV item lengths equal to their value
lengths, fields within their Go types' ranges), unmarshalling the bytes
produced by `Marshal(f)` with a fresh receiver yields a frame equal to `f`. -/
theorem c1_marshal_roundtrip (f : Frame) (hw : f.wf) : f.reDecode = .ok f := by
  cases f with
  | voice m =>
    obtain ⟨hh, hlen, hrange⟩ := hw
    simp only [Frame.reDecode, Frame.marshal, decodeAs, voiceMarshal, voiceUnmarshal]
    rw [parseHeader_marshal m.header hh]
    have hL : (marshalHeader m.header ++ (m.audioData.map le16).flatten).length = 352 := by
      rw [List.length_append, marshalHeader_length _ hh.1, le16_flatten_length, hlen]
    rw [hL]
    norm_num [headerSize, voiceFrameSize, hh.1]
    rw [show (160 : Nat) = m.audioData.length from hlen.symm]
    rw [readInt16s_flatten m.audioData hrange]
    rfl
  | dtmf m =>
    obtain ⟨hh, hd⟩ := hw
    simp only [Frame.reDecode, Frame.marshal, decodeAs, dtmfMarshal, dtmfUnmarshal]
    rw [parseHeader_marshal m.header hh]
    have hL : (marshalHeader m.header ++ [m.digit]).length = 33 := by
      simp [List.length_append, marshalHeader_length _ hh.1]
    rw [hL]
    norm_num [headerSize, hh.1]
    rfl
  | text m =>
    obtain ⟨hh, hb⟩ := hw
    simp only [Frame.reDecode, Frame.marshal, decodeAs, textMarshal, textUnmarshal]
    rw [parseHeader_marshal m.header hh]
    have hL : (marshalHeader m.header ++ m.text).length = 32 + m.text.length := by
      simp [List.length_append, marshalHeader_length _ hh.1]
    rw [hL]
    norm_num [headerSize, hh.1]
    rfl
  | ping m =>
    have hh := hw
    simp only [Frame.reDecode, Frame.marshal, decodeAs, pingMarshal, pingUnmarshal]
    rw [show marshalHeader m.header = marshalHeader m.header ++ [] by simp]
    rw [parseHeader_marshal m.header hh]
    have hL : (marshalHeader m.header ++ ([] : List Nat)).length = 32 := by
      simp [marshalHeader_length _ hh.1]
    rw [hL]
    norm_num [headerSize, hh.1]
    rfl
  | tlv m =>
    obtain ⟨hh, hitems⟩ := hw
    simp only [Frame.reDecode, Frame.marshal, decodeAs, tlvMarshal, tlvUnmarshal]
    rw [parseHeader_marshal m.header hh]
    have hL : (marshalHeader m.header ++ (m.tlvs.map tlvItemMarshal).flatten).length =
        32 + ((m.tlvs.map tlvItemMarshal).flatten).length := by
      simp [List.length_append, marshalHeader_length _ hh.1]
    rw [hL]
    norm_num [headerSize, hh.1]
    rw [parseTLVItems_marshal m.tlvs hitems []]
    rfl
  | ulaw m =>
    obtain ⟨hh, hlen, hb⟩ := hw
    simp only [Frame.reDecode, Frame.marshal, decodeAs, ulawMarshal, ulawUnmarshal]
    rw [parseHeader_marshal m.header hh]
    have hL : (marshalHeader m.header ++ m.audioData).length = 192 := by
      simp [List.length_append, marshalHeader_length _ hh.1, hlen]
    rw [hL]
    norm_num [headerSize, voiceFrameSize, hh.1]
    rw [show (160 : Nat) = m.audioData.length from hlen.symm]
    rw [List.take_length]
    rfl
  | adpcm m =>
    obtain ⟨hh, hb⟩ := hw
    simp only [Frame.reDecode, Frame.marshal, decodeAs, adpcmMarshal, adpcmUnmarshal]
    rw [parseHeader_marshal m.header hh]
    have hL : (marshalHeader m.header ++ m.audioData).length = 32 + m.audioData.length := by
      simp [List.length_append, marshalHeader_length _ hh.1]
    rw [hL]
    norm_num [headerSize, hh.1]
    rfl

/-- Witness for C1 at a concrete TLV frame carrying a callsign item. -/
theorem c1_marshal_roundtrip_witness :
    Frame.wf (.tlv ⟨newHeader 4 5, [⟨8, 4, [87, 49, 65, 87]⟩]⟩) ∧
    Frame.reDecode (.tlv ⟨newHeader 4 5, [⟨8, 4, [87, 49, 65, 87]⟩]⟩) =
      .ok (.tlv ⟨newHeader 4 5, [⟨8, 4, [87, 49, 65, 87]⟩]⟩) := by
  have hwf : Frame.wf (.tlv ⟨newHeader 4 5, [⟨8, 4, [87, 49, 65, 87]⟩]⟩) := by
    show (newHeader 4 5).wf ∧ ∀ it ∈ [(⟨8, 4, [87, 49, 65, 87]⟩ : TLVItem)], it.wf
    refine ⟨by decide, ?_⟩
    intro it hit
    simp only [List.mem_singleton] at hit
    subst hit
    show 8 < 256 ∧ 4 < 2 ^ 16 ∧ 4 = 4 ∧ ∀ b ∈ [87, 49, 65, 87], b < 256
    decide
  exact ⟨hwf, c1_marshal_roundtrip _ hwf⟩

theorem le16_flatten_getD (l : List Int) : ∀ i, i < l.length →
    ((l.map le16).flatten).getD (2 * i) 0 = ((l.getD i 0) % 65536).toNat % 256 ∧
    ((l.map le16).flatten).getD (2 * i + 1) 0 = ((l.getD i 0) % 65536).toNat / 256 := by
  induction l with
  | nil => intro i hi; simp at hi
  | cons s t ih =>
    intro i hi
    cases i with
    | zero => simp [le16]
    | succ j =>
      have hj : j < t.length := by simpa using hi
      have hrec := ih j hj
      simp only [List.map_cons, List.flatten_cons, le16, List.cons_append,
        List.nil_append]
      rw [show 2 * (j + 1) = 2 * j + 1 + 1 by ring]
      simp only [List.getD_cons_succ, List.getD_cons_zero]
      exact hrec

theorem voiceMarshal_getD_payload (v : VoiceMessage) (hh : v.header.eye = usrpMagic)
    (k : Nat) :
    (voiceMarshal v).getD (32 + k) 0 = ((v.audioData.map le16).flatten).getD k 0 := by
  unfold voiceMarshal
  rw [List.getD_append_right _ _ _ _ (by rw [marshalHeader_length _ hh]; omega)]
  congr 1
  rw [marshalHeader_length _ hh]
  omega

/-- C2: for every valid VOICE frame, `Marshal` produces exactly 352 bytes:
the first 4 bytes are "USRP", the seven header fields appear at offsets
4..31 as big-endian `uint32` values equal to the frame's field values, and
the bytes from offset 32 on are the 160 `int16` samples in little-endian
order. -/
theorem c2_voice_marshal_layout (v : VoiceMessage) (hh : v.header.wf) (hlen : v.audioData.length = 160)
    (hrange : ∀ s ∈ v.audioData, -32768 ≤ s ∧ s < 32768) :
    (voiceMarshal v).length = 352 ∧
    (voiceMarshal v).take 4 = usrpMagic ∧
    beAt (voiceMarshal v) 4 = v.header.seq ∧
    beAt (voiceMarshal v) 8 = v.header.memory ∧
    beAt (voiceMarshal v) 12 = v.header.keyup ∧
    beAt (voiceMarshal v) 16 = v.header.talkGroup ∧
    beAt (voiceMarshal v) 20 = v.header.type ∧
    beAt (voiceMarshal v) 24 = v.header.mpxID ∧
    beAt (voiceMarshal v) 28 = v.header.reserved ∧
    ∀ i, i < 160 →
      int16OfLE ((voiceMarshal v).getD (32 + 2 * i) 0)
        ((voiceMarshal v).getD (32 + 2 * i + 1) 0) = v.audioData.getD i 0 := by
  have hp := parseHeader_marshal v.header hh ((v.audioData.map le16).flatten)
  refine ⟨?_, ?_, ?_, ?_, ?_, ?_, ?_, ?_, ?_, ?_⟩
  · show (marshalHeader v.header ++ (v.audioData.map le16).flatten).length = 352
    rw [List.length_append, marshalHeader_length _ hh.1, le16_flatten_length, hlen]
  · have := congrArg (fun q => q.1.eye) hp
    simpa [hh.1] using this
  · exact congrArg (fun q => q.1.seq) hp
  · exact congrArg (fun q => q.1.memory) hp
  · exact congrArg (fun q => q.1.keyup) hp
  · exact congrArg (fun q => q.1.talkGroup) hp
  · exact congrArg (fun q => q.1.type) hp
  · exact congrArg (fun q => q.1.mpxID) hp
  · exact congrArg (fun q => q.1.reserved) hp
  · intro i hi
    have hi' : i < v.audioData.length := by omega
    rw [show 32 + 2 * i + 1 = 32 + (2 * i + 1) by ring]
    rw [voiceMarshal_getD_payload v hh.1, voiceMarshal_getD_payload v hh.1]
    obtain ⟨hb0, hb1⟩ := le16_flatten_getD v.audioData i hi'
    rw [hb0, hb1]
    have hmem : v.audioData.getD i 0 ∈ v.audioData := by
      rw [List.getD_eq_getElem v.audioData 0 hi']
      exact List.getElem_mem hi'
    obtain ⟨hr0, hr1⟩ := hrange _ hmem
    exact int16OfLE_le16 _ hr0 hr1

/-- Witness for C2 at a concrete VOICE frame with constant samples. -/
theorem c2_voice_marshal_layout_witness :
    (⟨newHeader 0 1234, List.replicate 160 3⟩ : VoiceMessage).header.wf ∧
    (⟨newHeader 0 1234, List.replicate 160 3⟩ : VoiceMessage).audioData.length = 160 ∧
    (∀ s ∈ (⟨newHeader 0 1234, List.replicate 160 3⟩ : VoiceMessage).audioData,
      -32768 ≤ s ∧ s < 32768) ∧
    ((voiceMarshal ⟨newHeader 0 1234, List.replicate 160 3⟩).length = 352 ∧
     (voiceMarshal ⟨newHeader 0 1234, List.replicate 160 3⟩).take 4 = usrpMagic ∧
     beAt (voiceMarshal ⟨newHeader 0 1234, List.replicate 160 3⟩) 4 =
       (⟨newHeader 0 1234, List.replicate 160 3⟩ : VoiceMessage).header.seq ∧
     beAt (voiceMarshal ⟨newHeader 0 1234, List.replicate 160 3⟩) 8 =
       (⟨newHeader 0 1234, List.replicate 160 3⟩ : VoiceMessage).header.memory ∧
     beAt (voiceMarshal ⟨newHeader 0 1234, List.replicate 160 3⟩) 12 =
       (⟨newHeader 0 1234, List.replicate 160 3⟩ : VoiceMessage).header.keyup ∧
     beAt (voiceMarshal ⟨newHeader 0 1234, List.replicate 160 3⟩) 16 =
       (⟨newHeader 0 1234, List.replicate 160 3⟩ : VoiceMessage).header.talkGroup ∧
     beAt (voiceMarshal ⟨newHeader 0 1234, List.replicate 160 3⟩) 20 =
       (⟨newHeader 0 1234, List.replicate 160 3⟩ : VoiceMessage).header.type ∧
     beAt (voiceMarshal ⟨newHeader 0 1234, List.replicate 160 3⟩) 24 =
       (⟨newHeader 0 1234, List.replicate 160 3⟩ : VoiceMessage).header.mpxID ∧
     beAt (voiceMarshal ⟨newHeader 0 1234, List.replicate 160 3⟩) 28 =
       (⟨newHeader 0 1234, List.replicate 160 3⟩ : VoiceMessage).header.reserved ∧
     ∀ i, i < 160 →
       int16OfLE ((voiceMarshal ⟨newHeader 0 1234, List.replicate 160 3⟩).getD (32 + 2 * i) 0)
         ((voiceMarshal ⟨newHeader 0 1234, List.replicate 160 3⟩).getD (32 + 2 * i + 1) 0) =
         (⟨newHeader 0 1234, List.replicate 160 3⟩ : VoiceMessage).audioData.getD i 0) :=
  ⟨by decide, by decide, by decide,
    c2_voice_marshal_layout _ (by decide) (by decide) (by decide)⟩

/-- C7: for any byte string shorter than 32 bytes or whose first four bytes
are not "USRP", the `Unmarshal` of every one of the seven packet types fails
with one of the two header-stage (MalformedHeader) errors and never
succeeds. -/
theorem c7_unmarshal_malformed_header (f : Frame) (data : List Nat) (_hb : ∀ b ∈ data, b < 256)
    (hbad : data.length < 32 ∨ data.take 4 ≠ usrpMagic) :
    ∃ e, decodeAs f data = .error e ∧ e.isMalformedHeader := by
  cases f with
  | voice _ =>
    simp only [decodeAs, voiceUnmarshal, headerSize, voiceFrameSize]
    by_cases h1 : data.length < 32
    · rw [if_pos h1]; exact ⟨.dataTooShort, rfl, trivial⟩
    · rw [if_neg h1]
      have hm : (parseHeader data).1.eye ≠ usrpMagic := by
        show data.take 4 ≠ usrpMagic
        rcases hbad with h | h
        · omega
        · exact h
      rw [if_pos hm]
      exact ⟨.invalidMagic, rfl, trivial⟩
  | dtmf _ =>
    simp only [decodeAs, dtmfUnmarshal, headerSize]
    by_cases h1 : data.length < 32 + 1
    · rw [if_pos h1]; exact ⟨.dataTooShort, rfl, trivial⟩
    · rw [if_neg h1]
      have hm : (parseHeader data).1.eye ≠ usrpMagic := by
        show data.take 4 ≠ usrpMagic
        rcases hbad with h | h
        · omega
        · exact h
      rw [if_pos hm]
      exact ⟨.invalidMagic, rfl, trivial⟩
  | text _ =>
    simp only [decodeAs, textUnmarshal, headerSize]
    by_cases h1 : data.length < 32
    · rw [if_pos h1]; exact ⟨.dataTooShort, rfl, trivial⟩
    · rw [if_neg h1]
      have hm : (parseHeader data).1.eye ≠ usrpMagic := by
        show data.take 4 ≠ usrpMagic
        rcases hbad with h | h
        · omega
        · exact h
      rw [if_pos hm]
      exact ⟨.invalidMagic, rfl, trivial⟩
  | ping _ =>
    simp only [decodeAs, pingUnmarshal, headerSize]
    by_cases h1 : data.length < 32
    · rw [if_pos h1]; exact ⟨.dataTooShort, rfl, trivial⟩
    · rw [if_neg h1]
      have hm : (parseHeader data).1.eye ≠ usrpMagic := by
        show data.take 4 ≠ usrpMagic
        rcases hbad with h | h
        · omega
        · exact h
      rw [if_pos hm]
      exact ⟨.invalidMagic, rfl, trivial⟩
  | tlv _ =>
    simp only [decodeAs, tlvUnmarshal, headerSize]
    by_cases h1 : data.length < 32
    · rw [if_pos h1]; exact ⟨.dataTooShort, rfl, trivial⟩
    · rw [if_neg h1]
      have hm : (parseHeader data).1.eye ≠ usrpMagic := by
        show data.take 4 ≠ usrpMagic
        rcases hbad with h | h
        · omega
        · exact h
      rw [if_pos hm]
      exact ⟨.invalidMagic, rfl, trivial⟩
  | ulaw _ =>
    simp only [decodeAs, ulawUnmarshal, headerSize, voiceFrameSize]
    by_cases h1 : data.length < 32 + 160
    · rw [if_pos h1]; exact ⟨.dataTooShort, rfl, trivial⟩
    · rw [if_neg h1]
      have hm : (parseHeader data).1.eye ≠ usrpMagic := by
        show data.take 4 ≠ usrpMagic
        rcases hbad with h | h
        · omega
        · exact h
      rw [if_pos hm]
      exact ⟨.invalidMagic, rfl, trivial⟩
  | adpcm _ =>
    simp only [decodeAs, adpcmUnmarshal, headerSize]
    by_cases h1 : data.length < 32
    · rw [if_pos h1]; exact ⟨.dataTooShort, rfl, trivial⟩
    · rw [if_neg h1]
      have hm : (parseHeader data).1.eye ≠ usrpMagic := by
        show data.take 4 ≠ usrpMagic
        rcases hbad with h | h
        · omega
        · exact h
      rw [if_pos hm]
      exact ⟨.invalidMagic, rfl, trivial⟩

/-- Witness for C7: a 3-byte input rejected by the VOICE decoder. -/
theorem c7_unmarshal_malformed_header_witness :
    (∀ b ∈ [1, 2, 3], b < 256) ∧ (([1, 2, 3] : List Nat).length < 32 ∨
      ([1, 2, 3] : List Nat).take 4 ≠ usrpMagic) ∧
    ∃ e, decodeAs (.ping ⟨⟨[0, 0, 0, 0], 0, 0, 0, 0, 0, 0, 0⟩⟩) [1, 2, 3] = .error e ∧
      e.isMalformedHeader :=
  ⟨by decide, Or.inl (by decide),
    c7_unmarshal_malformed_header _ [1, 2, 3] (by decide) (Or.inl (by decide))⟩

/-- C8: every destination computed by `getRoutingDestinations` differs from
the frame's source id, avoids the frame's `exclude_ids`, avoids the source
service's `exclude_services` (when the source service is registered), and is
an enabled service with `can_receive` set. -/
theorem c8_destination_set_hygiene (cfg : RouterConfig) (services : List ServiceInstance)
    (msg : AudioMessage) (d : ServiceInstance)
    (hd : d ∈ getRoutingDestinations cfg services msg) :
    d.id ≠ msg.sourceID ∧ d.id ∉ msg.excludeIDs ∧
    (∀ s, services.find? (fun s => s.id == msg.sourceID) = some s →
      d.id ∉ s.routing.excludeServices) ∧
    d.enabled = true ∧ d.routing.canReceive = true := by
  unfold getRoutingDestinations at hd
  rw [List.mem_filter] at hd
  obtain ⟨hmem, hp⟩ := hd
  simp only [Bool.and_eq_true, Bool.not_eq_true'] at hp
  obtain ⟨⟨⟨⟨⟨hen, hcr⟩, hself⟩, hexcl⟩, hsrc⟩, _hroute⟩ := hp
  refine ⟨?_, ?_, ?_, hen, hcr⟩
  · exact fun he => absurd hself (by simp [he])
  · exact fun hm => absurd hexcl (by simp [hm])
  · intro s hs
    rw [hs] at hsrc
    exact fun hm => absurd hsrc (by simp [hm])

/-- Witness for C8: a two-service registry routing from "a" to "b". -/
theorem c8_destination_set_hygiene_witness :
    (⟨"b", "discord", true, ⟨true, true, [], [], [], 5⟩⟩ : ServiceInstance) ∈
      getRoutingDestinations (⟨3, 30, true, "all-to-all"⟩ : RouterConfig)
        ([⟨"a", "usrp", true, ⟨true, true, [], [], [], 5⟩⟩,
          ⟨"b", "discord", true, ⟨true, true, [], [], [], 5⟩⟩] : List ServiceInstance)
        (⟨"a", [], "pcm", 1, 100, true, 0, [], [], 5⟩ : AudioMessage) ∧
    ((⟨"b", "discord", true, ⟨true, true, [], [], [], 5⟩⟩ : ServiceInstance).id ≠
      (⟨"a", [], "pcm", 1, 100, true, 0, [], [], 5⟩ : AudioMessage).sourceID ∧
     (⟨"b", "discord", true, ⟨true, true, [], [], [], 5⟩⟩ : ServiceInstance).id ∉
      (⟨"a", [], "pcm", 1, 100, true, 0, [], [], 5⟩ : AudioMessage).excludeIDs ∧
     (∀ s, ([⟨"a", "usrp", true, ⟨true, true, [], [], [], 5⟩⟩,
             ⟨"b", "discord", true, ⟨true, true, [], [], [], 5⟩⟩] : List ServiceInstance).find?
          (fun s => s.id == (⟨"a", [], "pcm", 1, 100, true, 0, [], [], 5⟩ : AudioMessage).sourceID) =
            some s →
        (⟨"b", "discord", true, ⟨true, true, [], [], [], 5⟩⟩ : ServiceInstance).id ∉
          s.routing.excludeServices) ∧
     (⟨"b", "discord", true, ⟨true, true, [], [], [], 5⟩⟩ : ServiceInstance).enabled = true ∧
     (⟨"b", "discord", true, ⟨true, true, [], [], [], 5⟩⟩ : ServiceInstance).routing.canReceive = true) :=
  ⟨by decide,
    c8_destination_set_hygiene (⟨3, 30, true, "all-to-all"⟩ : RouterConfig)
      ([⟨"a", "usrp", true, ⟨true, true, [], [], [], 5⟩⟩,
        ⟨"b", "discord", true, ⟨true, true, [], [], [], 5⟩⟩] : List ServiceInstance)
      (⟨"a", [], "pcm", 1, 100, true, 0, [], [], 5⟩ : AudioMessage)
      (⟨"b", "discord", true, ⟨true, true, [], [], [], 5⟩⟩ : ServiceInstance)
      (by decide)⟩

/-- C10: `TLVMessage.Unmarshal` is not atomic on the `TruncatedTLV` error:
the result's header fields hold the decoded input header, its TLV list
(reset at the start of every call) holds exactly the items that lie complete
before the failing item, and the outcome is independent of the receiver's
prior contents. -/
theorem c10_tlv_unmarshal_not_atomic (recv : TLVMessage) (data : List Nat)
    (he : (tlvUnmarshal recv data).2 = some .truncatedTLV) :
    (tlvUnmarshal recv data).1.header = (parseHeader data).1 ∧
    (tlvUnmarshal recv data).1.tlvs = completeTLVItems (data.drop 32) ∧
    ∀ recv' : TLVMessage, tlvUnmarshal recv' data = tlvUnmarshal recv data := by
  simp only [tlvUnmarshal] at he ⊢
  by_cases h1 : data.length < headerSize
  · rw [if_pos h1] at he
    simp at he
  · rw [if_neg h1] at he ⊢
    by_cases h2 : (parseHeader data).1.eye ≠ usrpMagic
    · rw [if_pos h2] at he
      simp at he
    · rw [if_neg h2] at he ⊢
      have hq := parseTLVItems_error (parseHeader data).2 [] _ he
      refine ⟨rfl, ?_, ?_⟩
      · show (parseTLVItems (parseHeader data).2 []).1 = completeTLVItems (data.drop 32)
        rw [hq.1]
        rfl
      · intro recv'
        rw [if_neg h1, if_neg h2]

/-- Witness for C10: a TLV packet whose second item declares length 5 with
only 2 bytes remaining. -/
theorem c10_tlv_unmarshal_not_atomic_witness :
    (tlvUnmarshal freshTLV [85, 83, 82, 80, 0, 0, 0, 1, 0, 0, 0, 0, 0, 0, 0, 0,
        0, 0, 0, 0, 0, 0, 0, 4, 0, 0, 0, 0, 0, 0, 0, 0, 2, 0, 5, 1, 2]).2 =
      some .truncatedTLV ∧
    ((tlvUnmarshal freshTLV [85, 83, 82, 80, 0, 0, 0, 1, 0, 0, 0, 0, 0, 0, 0, 0,
        0, 0, 0, 0, 0, 0, 0, 4, 0, 0, 0, 0, 0, 0, 0, 0, 2, 0, 5, 1, 2]).1.header =
      (parseHeader [85, 83, 82, 80, 0, 0, 0, 1, 0, 0, 0, 0, 0, 0, 0, 0,
        0, 0, 0, 0, 0, 0, 0, 4, 0, 0, 0, 0, 0, 0, 0, 0, 2, 0, 5, 1, 2]).1 ∧
     (tlvUnmarshal freshTLV [85, 83, 82, 80, 0, 0, 0, 1, 0, 0, 0, 0, 0, 0, 0, 0,
        0, 0, 0, 0, 0, 0, 0, 4, 0, 0, 0, 0, 0, 0, 0, 0, 2, 0, 5, 1, 2]).1.tlvs =
      completeTLVItems ([85, 83, 82, 80, 0, 0, 0, 1, 0, 0, 0, 0, 0, 0, 0, 0,
        0, 0, 0, 0, 0, 0, 0, 4, 0, 0, 0, 0, 0, 0, 0, 0, 2, 0, 5, 1, 2].drop 32) ∧
     ∀ recv' : TLVMessage,
       tlvUnmarshal recv' [85, 83, 82, 80, 0, 0, 0, 1, 0, 0, 0, 0, 0, 0, 0, 0,
          0, 0, 0, 0, 0, 0, 0, 4, 0, 0, 0, 0, 0, 0, 0, 0, 2, 0, 5, 1, 2] =
        tlvUnmarshal freshTLV [85, 83, 82, 80, 0, 0, 0, 1, 0, 0, 0, 0, 0, 0, 0, 0,
          0, 0, 0, 0, 0, 0, 0, 4, 0, 0, 0, 0, 0, 0, 0, 0, 2, 0, 5, 1, 2]) := by
  have he : (tlvUnmarshal freshTLV [85, 83, 82, 80, 0, 0, 0, 1, 0, 0, 0, 0, 0, 0, 0, 0,
      0, 0, 0, 0, 0, 0, 0, 4, 0, 0, 0, 0, 0, 0, 0, 0, 2, 0, 5, 1, 2]).2 =
      some .truncatedTLV := by
    simp [tlvUnmarshal, headerSize, parseHeader, usrpMagic, parseTLVItems]
  exact ⟨he, c10_tlv_unmarshal_not_atomic freshTLV _ he⟩

/-- Counterexample for C3: with `default_routing = "all-to-all"`, a source
whose `send_to_types` is `["discord"]` still routes to a destination of type
"usrp" — `shouldRoute` returns before consulting any filter. -/
theorem c3_filters_bypassed_counterexample :
    (⟨"b", "usrp", true, ⟨true, true, [], [], [], 5⟩⟩ : ServiceInstance) ∈
      getRoutingDestinations (⟨3, 30, true, "all-to-all"⟩ : RouterConfig)
        ([⟨"a", "usrp", true, ⟨true, true, ["discord"], [], [], 5⟩⟩,
          ⟨"b", "usrp", true, ⟨true, true, [], [], [], 5⟩⟩] : List ServiceInstance)
        (⟨"a", [], "pcm", 1, 100, true, 0, [], [], 5⟩ : AudioMessage) ∧
    ([⟨"a", "usrp", true, ⟨true, true, ["discord"], [], [], 5⟩⟩,
      ⟨"b", "usrp", true, ⟨true, true, [], [], [], 5⟩⟩] : List ServiceInstance).find?
        (fun s => s.id == "a") =
      some ⟨"a", "usrp", true, ⟨true, true, ["discord"], [], [], 5⟩⟩ ∧
    (⟨"a", "usrp", true, ⟨true, true, ["discord"], [], [], 5⟩⟩ :
      ServiceInstance).routing.sendToTypes ≠ [] ∧
    (⟨"b", "usrp", true, ⟨true, true, [], [], [], 5⟩⟩ : ServiceInstance).stype ∉
      (⟨"a", "usrp", true, ⟨true, true, ["discord"], [], [], 5⟩⟩ :
        ServiceInstance).routing.sendToTypes := by
  decide

/-- C3 (amended): the three filters are honoured only when
`default_routing` is none of the recognised values ("all-to-all" routes to
every remaining destination regardless of the filters; "hub-only" and "none"
route to none): under an unrecognised value, every destination in the final
set satisfies the source-side `send_to_types`, destination-side
`receive_from` and frame-level `route_to_types` filters whenever those are
non-empty. -/
theorem c3_filters_when_unrecognized_routing (cfg : RouterConfig) (services : List ServiceInstance)
    (msg : AudioMessage) (src d : ServiceInstance)
    (hdr1 : cfg.defaultRouting ≠ "all-to-all") (hdr2 : cfg.defaultRouting ≠ "hub-only")
    (hdr3 : cfg.defaultRouting ≠ "none")
    (hsrc : services.find? (fun s => s.id == msg.sourceID) = some src)
    (hd : d ∈ getRoutingDestinations cfg services msg) :
    (src.routing.sendToTypes ≠ [] → d.stype ∈ src.routing.sendToTypes) ∧
    (d.routing.receiveFrom ≠ [] → src.stype ∈ d.routing.receiveFrom) ∧
    (msg.routeToTypes ≠ [] → d.stype ∈ msg.routeToTypes) := by
  unfold getRoutingDestinations at hd
  rw [List.mem_filter, hsrc] at hd
  have hsr : shouldRoute cfg (some src) d msg = true := by
    have := hd.2
    simp only [Bool.and_eq_true] at this
    exact this.2
  unfold shouldRoute at hsr
  rw [if_neg (by simp [hdr1]), if_neg (by simp [hdr2]), if_neg (by simp [hdr3])] at hsr
  by_cases hA : (!src.routing.sendToTypes.isEmpty && !src.routing.sendToTypes.contains d.stype) = true
  · rw [if_pos hA] at hsr
    exact absurd hsr (by simp)
  · rw [if_neg hA] at hsr
    by_cases hB : (!d.routing.receiveFrom.isEmpty &&
        !(d.routing.receiveFrom.any fun a => a == src.stype)) = true
    · rw [if_pos hB] at hsr
      exact absurd hsr (by simp)
    · rw [if_neg hB] at hsr
      by_cases hC : (!msg.routeToTypes.isEmpty && !msg.routeToTypes.contains d.stype) = true
      · rw [if_pos hC] at hsr
        exact absurd hsr (by simp)
      · have hie : ∀ l : List String, l ≠ [] → l.isEmpty = false := by
          intro l hl
          cases l with
          | nil => exact absurd rfl hl
          | cons x t => simp
        refine ⟨?_, ?_, ?_⟩
        · intro hne
          simp only [Bool.and_eq_true, Bool.not_eq_true', not_and, Bool.not_eq_false] at hA
          have hc := hA (hie _ hne)
          simpa using hc
        · intro hne
          simp only [Bool.and_eq_true, Bool.not_eq_true', not_and, Bool.not_eq_false] at hB
          have hc := hB (hie _ hne)
          simp only [List.any_eq_true, beq_iff_eq] at hc
          obtain ⟨a, ha, rfl⟩ := hc
          exact ha
        · intro hne
          simp only [Bool.and_eq_true, Bool.not_eq_true', not_and, Bool.not_eq_false] at hC
          have hc := hC (hie _ hne)
          simpa using hc

/-- Witness for the amended C3 under an unrecognised `default_routing`. -/
theorem c3_filters_when_unrecognized_routing_witness :
    ((⟨3, 30, true, ""⟩ : RouterConfig).defaultRouting ≠ "all-to-all") ∧
    ((⟨3, 30, true, ""⟩ : RouterConfig).defaultRouting ≠ "hub-only") ∧
    ((⟨3, 30, true, ""⟩ : RouterConfig).defaultRouting ≠ "none") ∧
    (([⟨"a", "usrp", true, ⟨true, true, ["usrp"], [], [], 5⟩⟩,
       ⟨"b", "usrp", true, ⟨true, true, [], ["usrp"], [], 5⟩⟩] :
        List ServiceInstance).find?
      (fun s => s.id == (⟨"a", [], "pcm", 1, 100, true, 0, ["usrp"], [], 5⟩ :
        AudioMessage).sourceID) =
      some ⟨"a", "usrp", true, ⟨true, true, ["usrp"], [], [], 5⟩⟩) ∧
    ((⟨"b", "usrp", true, ⟨true, true, [], ["usrp"], [], 5⟩⟩ : ServiceInstance) ∈
      getRoutingDestinations (⟨3, 30, true, ""⟩ : RouterConfig)
        ([⟨"a", "usrp", true, ⟨true, true, ["usrp"], [], [], 5⟩⟩,
          ⟨"b", "usrp", true, ⟨true, true, [], ["usrp"], [], 5⟩⟩] : List ServiceInstance)
        (⟨"a", [], "pcm", 1, 100, true, 0, ["usrp"], [], 5⟩ : AudioMessage)) ∧
    (((⟨"a", "usrp", true, ⟨true, true, ["usrp"], [], [], 5⟩⟩ :
        ServiceInstance).routing.sendToTypes ≠ [] →
      (⟨"b", "usrp", true, ⟨true, true, [], ["usrp"], [], 5⟩⟩ : ServiceInstance).stype ∈
        (⟨"a", "usrp", true, ⟨true, true, ["usrp"], [], [], 5⟩⟩ :
          ServiceInstance).routing.sendToTypes) ∧
     ((⟨"b", "usrp", true, ⟨true, true, [], ["usrp"], [], 5⟩⟩ :
        ServiceInstance).routing.receiveFrom ≠ [] →
      (⟨"a", "usrp", true, ⟨true, true, ["usrp"], [], [], 5⟩⟩ : ServiceInstance).stype ∈
        (⟨"b", "usrp", true, ⟨true, true, [], ["usrp"], [], 5⟩⟩ :
          ServiceInstance).routing.receiveFrom) ∧
     ((⟨"a", [], "pcm", 1, 100, true, 0, ["usrp"], [], 5⟩ :
        AudioMessage).routeToTypes ≠ [] →
      (⟨"b", "usrp", true, ⟨true, true, [], ["usrp"], [], 5⟩⟩ : ServiceInstance).stype ∈
        (⟨"a", [], "pcm", 1, 100, true, 0, ["usrp"], [], 5⟩ :
          AudioMessage).routeToTypes)) :=
  ⟨by decide, by decide, by decide, by decide, by decide,
    c3_filters_when_unrecognized_routing (⟨3, 30, true, ""⟩ : RouterConfig)
      ([⟨"a", "usrp", true, ⟨true, true, ["usrp"], [], [], 5⟩⟩,
        ⟨"b", "usrp", true, ⟨true, true, [], ["usrp"], [], 5⟩⟩] : List ServiceInstance)
      (⟨"a", [], "pcm", 1, 100, true, 0, ["usrp"], [], 5⟩ : AudioMessage)
      (⟨"a", "usrp", true, ⟨true, true, ["usrp"], [], [], 5⟩⟩ : ServiceInstance)
      (⟨"b", "usrp", true, ⟨true, true, [], ["usrp"], [], 5⟩⟩ : ServiceInstance)
      (by decide) (by decide) (by decide) (by decide) (by decide)⟩

/-- Counterexample for C4: a well-formed-header DTMF packet whose payload
byte is 88 ('X', not a DTMF digit) is accepted by `DTMFMessage.Unmarshal`;
no digit validation happens on decode. -/
theorem c4_unmarshal_accepts_invalid_digit :
    isValidDTMFDigit 88 = false ∧
    dtmfUnmarshal [85, 83, 82, 80, 0, 0, 0, 2, 0, 0, 0, 0, 0, 0, 0, 0,
        0, 0, 0, 0, 0, 0, 0, 1, 0, 0, 0, 0, 0, 0, 0, 0, 88] =
      .ok ⟨⟨usrpMagic, 2, 0, 0, 0, 1, 0, 0⟩, 88⟩ := by
  exact ⟨by decide, by rfl⟩

/-- C4 (amended): DTMF digit validation applies only on explicit
`Validate()` calls: `Unmarshal` succeeds on any input with a well-formed
header regardless of the digit byte, while `Validate` on a type-DTMF frame
whose digit is outside `{'0'..'9','A'..'D','*','#'}` returns
InvalidDTMFDigit. -/
theorem c4_digit_validation_only_in_validate (data : List Nat) (hlen : 33 ≤ data.length)
    (hmagic : data.take 4 = usrpMagic) :
    (∃ m, dtmfUnmarshal data = .ok m) ∧
    (∀ m : DTMFMessage, m.header.type = 1 → isValidDTMFDigit m.digit = false →
      dtmfValidate m = some (.invalidDTMFDigit m.digit)) := by
  constructor
  · simp only [dtmfUnmarshal, headerSize]
    rw [if_neg (by omega)]
    rw [if_neg (by show ¬ data.take 4 ≠ usrpMagic; simp [hmagic])]
    exact ⟨_, rfl⟩
  · intro m ht hd
    simp only [dtmfValidate]
    rw [if_neg (by simp [ht])]
    rw [if_pos (by simp [hd])]

/-- Witness for the amended C4 at the 33-byte packet with digit 'X'. -/
theorem c4_digit_validation_only_in_validate_witness :
    33 ≤ ([85, 83, 82, 80, 0, 0, 0, 2, 0, 0, 0, 0, 0, 0, 0, 0,
        0, 0, 0, 0, 0, 0, 0, 1, 0, 0, 0, 0, 0, 0, 0, 0, 88] : List Nat).length ∧
    ([85, 83, 82, 80, 0, 0, 0, 2, 0, 0, 0, 0, 0, 0, 0, 0,
        0, 0, 0, 0, 0, 0, 0, 1, 0, 0, 0, 0, 0, 0, 0, 0, 88] : List Nat).take 4 =
      usrpMagic ∧
    ((∃ m, dtmfUnmarshal [85, 83, 82, 80, 0, 0, 0, 2, 0, 0, 0, 0, 0, 0, 0, 0,
        0, 0, 0, 0, 0, 0, 0, 1, 0, 0, 0, 0, 0, 0, 0, 0, 88] = .ok m) ∧
     (∀ m : DTMFMessage, m.header.type = 1 → isValidDTMFDigit m.digit = false →
       dtmfValidate m = some (.invalidDTMFDigit m.digit))) :=
  ⟨by decide, by decide,
    c4_digit_validation_only_in_validate
      [85, 83, 82, 80, 0, 0, 0, 2, 0, 0, 0, 0, 0, 0, 0, 0,
       0, 0, 0, 0, 0, 0, 0, 1, 0, 0, 0, 0, 0, 0, 0, 0, 88]
      (by decide) (by decide)⟩

theorem setTx_find (m : List (String × AudioMessage)) (k : String) (v : AudioMessage) :
    (setTx m k v).find? (fun e => e.1 == k) = some (k, v) := by
  unfold setTx
  by_cases hk : m.any (fun e => e.1 == k) = true
  · rw [if_pos hk]
    induction m with
    | nil => simp at hk
    | cons e t ih =>
      by_cases he : (e.1 == k) = true
      · simp only [List.map_cons, if_pos he, List.find?_cons]
        have : ((k, v).1 == k) = true := by simp
        rw [this]
      · simp only [List.any_cons, he, Bool.false_or] at hk
        have hmap : (if (e.1 == k) = true then (k, v) else e) = e := by
          rw [if_neg]
          simp [he]
        simp only [List.map_cons]
        rw [hmap, List.find?_cons]
        simp only [he]
        exact ih hk
  · rw [if_neg hk]
    rw [Bool.not_eq_true, List.any_eq_false] at hk
    induction m with
    | nil =>
      simp only [List.nil_append, List.find?_cons]
      have : ((k, v).1 == k) = true := by simp
      rw [this]
    | cons e t ih =>
      have he : (e.1 == k) = false := by
        have := hk e (List.mem_cons_self e t)
        simpa using this
      simp only [List.cons_append, List.find?_cons, he]
      exact ih (fun a ha => hk a (List.mem_cons_of_mem e ha))

/-- Counterexample for C5: with `max_concurrent_tx = 1`, priority rules
disabled and source "a" already ACTIVE, a further `ptt_active=true` frame
from "a" is rejected by `manageTransmission` — the cap check applies to
refreshes as well. -/
theorem c5_active_refresh_rejected_at_cap :
    ((sweepTx (⟨1, 30, false, "all-to-all"⟩ : RouterConfig) 100
        [("a", ⟨"a", [], "pcm", 1, 100, true, 0, [], [], 5⟩)]).any
      (fun e => e.1 == "a") = true) ∧
    (⟨"a", [], "pcm", 1, 100, true, 0, [], [], 5⟩ : AudioMessage).pttActive = true ∧
    (manageTransmission (⟨1, 30, false, "all-to-all"⟩ : RouterConfig) 100
        [("a", ⟨"a", [], "pcm", 1, 100, true, 0, [], [], 5⟩)]
        ⟨"a", [], "pcm", 1, 100, true, 0, [], [], 5⟩).2 = false := by
  decide

/-- C5 (amended): a further `ptt_active=true` frame from an ACTIVE source is
admitted and refreshes that source's entry, regardless of priorities, only
while the post-sweep map is below `max_concurrent_tx`; at or above the cap
the refresh is subject to the same admission check as a new transmission and
can be rejected. -/
theorem c5_active_refresh_below_cap (cfg : RouterConfig) (now : Nat)
    (m : List (String × AudioMessage)) (msg : AudioMessage)
    (hact : (sweepTx cfg now m).any (fun e => e.1 == msg.sourceID) = true)
    (hptt : msg.pttActive = true)
    (hcap : (sweepTx cfg now m).length < cfg.maxConcurrentTx) :
    (manageTransmission cfg now m msg).2 = true ∧
    (manageTransmission cfg now m msg).1 = setTx (sweepTx cfg now m) msg.sourceID msg ∧
    (manageTransmission cfg now m msg).1.find? (fun e => e.1 == msg.sourceID) =
      some (msg.sourceID, msg) := by
  unfold manageTransmission
  rw [hptt]
  simp only [if_true]
  rw [if_neg (by omega)]
  exact ⟨rfl, rfl, setTx_find _ _ _⟩

/-- Witness for the amended C5: cap 2, one active entry, a refresh from the
same source. -/
theorem c5_active_refresh_below_cap_witness :
    ((sweepTx (⟨2, 30, false, "all-to-all"⟩ : RouterConfig) 100
        [("a", ⟨"a", [], "pcm", 1, 100, true, 0, [], [], 5⟩)]).any
      (fun e => e.1 == (⟨"a", [], "pcm", 2, 101, true, 0, [], [], 5⟩ :
        AudioMessage).sourceID) = true) ∧
    (⟨"a", [], "pcm", 2, 101, true, 0, [], [], 5⟩ : AudioMessage).pttActive = true ∧
    ((sweepTx (⟨2, 30, false, "all-to-all"⟩ : RouterConfig) 100
        [("a", ⟨"a", [], "pcm", 1, 100, true, 0, [], [], 5⟩)]).length <
      (⟨2, 30, false, "all-to-all"⟩ : RouterConfig).maxConcurrentTx) ∧
    ((manageTransmission (⟨2, 30, false, "all-to-all"⟩ : RouterConfig) 100
        [("a", ⟨"a", [], "pcm", 1, 100, true, 0, [], [], 5⟩)]
        ⟨"a", [], "pcm", 2, 101, true, 0, [], [], 5⟩).2 = true ∧
     (manageTransmission (⟨2, 30, false, "all-to-all"⟩ : RouterConfig) 100
        [("a", ⟨"a", [], "pcm", 1, 100, true, 0, [], [], 5⟩)]
        ⟨"a", [], "pcm", 2, 101, true, 0, [], [], 5⟩).1 =
      setTx (sweepTx (⟨2, 30, false, "all-to-all"⟩ : RouterConfig) 100
          [("a", ⟨"a", [], "pcm", 1, 100, true, 0, [], [], 5⟩)])
        (⟨"a", [], "pcm", 2, 101, true, 0, [], [], 5⟩ : AudioMessage).sourceID
        ⟨"a", [], "pcm", 2, 101, true, 0, [], [], 5⟩ ∧
     (manageTransmission (⟨2, 30, false, "all-to-all"⟩ : RouterConfig) 100
        [("a", ⟨"a", [], "pcm", 1, 100, true, 0, [], [], 5⟩)]
        ⟨"a", [], "pcm", 2, 101, true, 0, [], [], 5⟩).1.find?
        (fun e => e.1 == (⟨"a", [], "pcm", 2, 101, true, 0, [], [], 5⟩ :
          AudioMessage).sourceID) =
      some ((⟨"a", [], "pcm", 2, 101, true, 0, [], [], 5⟩ : AudioMessage).sourceID,
        ⟨"a", [], "pcm", 2, 101, true, 0, [], [], 5⟩)) :=
  ⟨by decide, by decide, by decide,
    c5_active_refresh_below_cap (⟨2, 30, false, "all-to-all"⟩ : RouterConfig) 100
      [("a", ⟨"a", [], "pcm", 1, 100, true, 0, [], [], 5⟩)]
      (⟨"a", [], "pcm", 2, 101, true, 0, [], [], 5⟩ : AudioMessage)
      (by decide) (by decide) (by decide)⟩

theorem setTx_keys (m : List (String × AudioMessage)) (k : String) (v : AudioMessage) :
    ∀ e ∈ m, ∃ e', e' ∈ setTx m k v ∧ e'.1 = e.1 := by
  intro e he
  unfold setTx
  by_cases hk : m.any (fun x => x.1 == k) = true
  · rw [if_pos hk]
    refine ⟨if (e.1 == k) = true then (k, v) else e, List.mem_map_of_mem _ he, ?_⟩
    by_cases hek : (e.1 == k) = true
    · rw [if_pos hek]
      exact (beq_iff_eq.mp hek).symm
    · rw [if_neg hek]
  · rw [if_neg hk]
    exact ⟨e, List.mem_append_left _ he, rfl⟩

theorem setTx_length_new (m : List (String × AudioMessage)) (k : String)
    (v : AudioMessage) (hk : m.any (fun x => x.1 == k) = false) :
    (setTx m k v).length = m.length + 1 := by
  unfold setTx
  rw [if_neg (by simp [hk])]
  simp

/-- Counterexample for C6: with `max_concurrent_tx = 1` and priorities on,
a higher-priority frame whose source already holds the single entry is
admitted by preemption, yet the map's size stays at the cap — it does not
transiently exceed it. -/
theorem c6_self_preempt_stays_at_cap :
    sweepTx (⟨1, 30, true, "all-to-all"⟩ : RouterConfig) 100
        [("a", ⟨"a", [], "pcm", 1, 100, true, 0, [], [], 3⟩)] =
      [("a", ⟨"a", [], "pcm", 1, 100, true, 0, [], [], 3⟩)] ∧
    ([("a", (⟨"a", [], "pcm", 1, 100, true, 0, [], [], 3⟩ : AudioMessage))]).length =
      (⟨1, 30, true, "all-to-all"⟩ : RouterConfig).maxConcurrentTx ∧
    (⟨"a", [], "pcm", 2, 101, true, 0, [], [], 5⟩ : AudioMessage).pttActive = true ∧
    (⟨1, 30, true, "all-to-all"⟩ : RouterConfig).enablePriorityRules = true ∧
    (([("a", (⟨"a", [], "pcm", 1, 100, true, 0, [], [], 3⟩ : AudioMessage))]).any
      (fun e => (⟨"a", [], "pcm", 2, 101, true, 0, [], [], 5⟩ :
        AudioMessage).priority > e.2.priority) = true) ∧
    (manageTransmission (⟨1, 30, true, "all-to-all"⟩ : RouterConfig) 100
        [("a", ⟨"a", [], "pcm", 1, 100, true, 0, [], [], 3⟩)]
        ⟨"a", [], "pcm", 2, 101, true, 0, [], [], 5⟩).2 = true ∧
    (manageTransmission (⟨1, 30, true, "all-to-all"⟩ : RouterConfig) 100
        [("a", ⟨"a", [], "pcm", 1, 100, true, 0, [], [], 3⟩)]
        ⟨"a", [], "pcm", 2, 101, true, 0, [], [], 5⟩).1.length =
      (⟨1, 30, true, "all-to-all"⟩ : RouterConfig).maxConcurrentTx := by
  decide

/-- C6 (amended): when a `ptt_active=true` frame arrives and the map holds
exactly `max_concurrent_tx` non-expired entries, it is admitted iff
`enable_priority_rules` is true and its priority strictly exceeds some
existing entry's; on admission no entry is removed and, when the frame's
source is not already among the entries, the map transiently exceeds the cap
(a same-source refresh keeps the size at the cap); otherwise the frame is
rejected and counted toward `dropped_messages`. -/
theorem c6_preemption_at_cap (cfg : RouterConfig) (now : Nat)
    (m : List (String × AudioMessage)) (msg : AudioMessage)
    (hsw : sweepTx cfg now m = m) (hlen : m.length = cfg.maxConcurrentTx)
    (hptt : msg.pttActive = true) :
    ((manageTransmission cfg now m msg).2 = true ↔
      cfg.enablePriorityRules = true ∧
      (m.any fun e => msg.priority > e.2.priority) = true) ∧
    ((manageTransmission cfg now m msg).2 = true →
      (manageTransmission cfg now m msg).1 = setTx m msg.sourceID msg ∧
      (∀ e ∈ m, ∃ e', e' ∈ (manageTransmission cfg now m msg).1 ∧ e'.1 = e.1) ∧
      ((m.any fun e => e.1 == msg.sourceID) = false →
        (manageTransmission cfg now m msg).1.length = cfg.maxConcurrentTx + 1)) ∧
    ((manageTransmission cfg now m msg).2 = false →
      (manageTransmission cfg now m msg).1 = m ∧
      ∀ (services : List ServiceInstance) (stats : RouterStats)
        (sendOk : ServiceInstance → Bool),
        (routeAudioMessage cfg services now m stats sendOk msg).2.droppedMessages =
          stats.droppedMessages + 1) := by
  have hred : manageTransmission cfg now m msg =
      if cfg.enablePriorityRules then
        (if (m.any fun e => msg.priority > e.2.priority) = true then
          (setTx m msg.sourceID msg, true)
        else (m, false))
      else (m, false) := by
    unfold manageTransmission
    rw [hsw, hptt]
    simp only [if_true]
    rw [if_pos (by omega)]
  have hroute : ∀ (services : List ServiceInstance) (stats : RouterStats)
      (sendOk : ServiceInstance → Bool),
      (manageTransmission cfg now m msg).2 = false →
      (routeAudioMessage cfg services now m stats sendOk msg).2.droppedMessages =
        stats.droppedMessages + 1 := by
    intro services stats sendOk hrej
    simp only [routeAudioMessage]
    rw [hrej]
    rfl
  by_cases hpr : cfg.enablePriorityRules = true
  · rw [hpr] at hred
    simp only [if_true] at hred
    by_cases hany : (m.any fun e => msg.priority > e.2.priority) = true
    · rw [if_pos hany] at hred
      refine ⟨by simp [hred, hpr, hany], ?_, by simp [hred]⟩
      intro _
      rw [hred]
      refine ⟨rfl, setTx_keys m msg.sourceID msg, ?_⟩
      intro hnew
      show (setTx m msg.sourceID msg).length = cfg.maxConcurrentTx + 1
      rw [setTx_length_new m _ _ hnew, hlen]
    · rw [if_neg hany] at hred
      refine ⟨by simp [hred, hany], by simp [hred], ?_⟩
      intro _
      exact ⟨by rw [hred], fun services stats sendOk =>
        hroute services stats sendOk (by rw [hred])⟩
  · rw [if_neg hpr] at hred
    refine ⟨by simp [hred, hpr], by simp [hred], ?_⟩
    intro _
    exact ⟨by rw [hred], fun services stats sendOk =>
      hroute services stats sendOk (by rw [hred])⟩

/-- Witness for the amended C6: the spec's preemption scenario, cap 1,
priority 3 active, priority 7 arriving from a different source. -/
theorem c6_preemption_at_cap_witness :
    sweepTx (⟨1, 30, true, "all-to-all"⟩ : RouterConfig) 100
        [("a", ⟨"a", [], "pcm", 1, 100, true, 0, [], [], 3⟩)] =
      [("a", ⟨"a", [], "pcm", 1, 100, true, 0, [], [], 3⟩)] ∧
    ([("a", (⟨"a", [], "pcm", 1, 100, true, 0, [], [], 3⟩ : AudioMessage))]).length =
      (⟨1, 30, true, "all-to-all"⟩ : RouterConfig).maxConcurrentTx ∧
    (⟨"b", [], "pcm", 1, 101, true, 0, [], [], 7⟩ : AudioMessage).pttActive = true ∧
    (((manageTransmission (⟨1, 30, true, "all-to-all"⟩ : RouterConfig) 100
        [("a", ⟨"a", [], "pcm", 1, 100, true, 0, [], [], 3⟩)]
        ⟨"b", [], "pcm", 1, 101, true, 0, [], [], 7⟩).2 = true ↔
      (⟨1, 30, true, "all-to-all"⟩ : RouterConfig).enablePriorityRules = true ∧
      (([("a", (⟨"a", [], "pcm", 1, 100, true, 0, [], [], 3⟩ : AudioMessage))]).any
        fun e => (⟨"b", [], "pcm", 1, 101, true, 0, [], [], 7⟩ :
          AudioMessage).priority > e.2.priority) = true) ∧
     ((manageTransmission (⟨1, 30, true, "all-to-all"⟩ : RouterConfig) 100
        [("a", ⟨"a", [], "pcm", 1, 100, true, 0, [], [], 3⟩)]
        ⟨"b", [], "pcm", 1, 101, true, 0, [], [], 7⟩).2 = true →
      (manageTransmission (⟨1, 30, true, "all-to-all"⟩ : RouterConfig) 100
          [("a", ⟨"a", [], "pcm", 1, 100, true, 0, [], [], 3⟩)]
          ⟨"b", [], "pcm", 1, 101, true, 0, [], [], 7⟩).1 =
        setTx [("a", ⟨"a", [], "pcm", 1, 100, true, 0, [], [], 3⟩)]
          (⟨"b", [], "pcm", 1, 101, true, 0, [], [], 7⟩ : AudioMessage).sourceID
          ⟨"b", [], "pcm", 1, 101, true, 0, [], [], 7⟩ ∧
      (∀ e ∈ [("a", (⟨"a", [], "pcm", 1, 100, true, 0, [], [], 3⟩ : AudioMessage))],
        ∃ e', e' ∈ (manageTransmission (⟨1, 30, true, "all-to-all"⟩ : RouterConfig) 100
            [("a", ⟨"a", [], "pcm", 1, 100, true, 0, [], [], 3⟩)]
            ⟨"b", [], "pcm", 1, 101, true, 0, [], [], 7⟩).1 ∧ e'.1 = e.1) ∧
      ((([("a", (⟨"a", [], "pcm", 1, 100, true, 0, [], [], 3⟩ : AudioMessage))]).any
          fun e => e.1 == (⟨"b", [], "pcm", 1, 101, true, 0, [], [], 7⟩ :
            AudioMessage).sourceID) = false →
        (manageTransmission (⟨1, 30, true, "all-to-all"⟩ : RouterConfig) 100
            [("a", ⟨"a", [], "pcm", 1, 100, true, 0, [], [], 3⟩)]
            ⟨"b", [], "pcm", 1, 101, true, 0, [], [], 7⟩).1.length =
          (⟨1, 30, true, "all-to-all"⟩ : RouterConfig).maxConcurrentTx + 1)) ∧
     ((manageTransmission (⟨1, 30, true, "all-to-all"⟩ : RouterConfig) 100
        [("a", ⟨"a", [], "pcm", 1, 100, true, 0, [], [], 3⟩)]
        ⟨"b", [], "pcm", 1, 101, true, 0, [], [], 7⟩).2 = false →
      (manageTransmission (⟨1, 30, true, "all-to-all"⟩ : RouterConfig) 100
          [("a", ⟨"a", [], "pcm", 1, 100, true, 0, [], [], 3⟩)]
          ⟨"b", [], "pcm", 1, 101, true, 0, [], [], 7⟩).1 =
        [("a", ⟨"a", [], "pcm", 1, 100, true, 0, [], [], 3⟩)] ∧
      ∀ (services : List ServiceInstance) (stats : RouterStats)
        (sendOk : ServiceInstance → Bool),
        (routeAudioMessage (⟨1, 30, true, "all-to-all"⟩ : RouterConfig) services 100
            [("a", ⟨"a", [], "pcm", 1, 100, true, 0, [], [], 3⟩)] stats sendOk
            ⟨"b", [], "pcm", 1, 101, true, 0, [], [], 7⟩).2.droppedMessages =
          stats.droppedMessages + 1)) :=
  ⟨by decide, by decide, by decide,
    c6_preemption_at_cap (⟨1, 30, true, "all-to-all"⟩ : RouterConfig) 100
      [("a", ⟨"a", [], "pcm", 1, 100, true, 0, [], [], 3⟩)]
      (⟨"b", [], "pcm", 1, 101, true, 0, [], [], 7⟩ : AudioMessage)
      (by decide) (by decide) (by decide)⟩

/-- Counterexample for C9: a 2-byte pcm payload `[1, 0]` would populate the
leading sample with 1 if short payloads were copied, but the egress frame's
first sample is 0 — the fill loop is skipped entirely below 320 bytes. -/
theorem c9_short_payload_not_copied :
    (sendToUSRPVoice ⟨"a", [1, 0], "pcm", 1, 100, true, 0, [], [], 5⟩).audioData.getD 0 0 =
      0 ∧
    int16OfLE 1 0 = 1 ∧ ((0 : Int) ≠ 1) := by
  refine ⟨?_, by decide, by decide⟩
  decide

/-- C9 (amended): USRP egress for a pcm frame builds a VOICE frame carrying
the source's sequence number, PTT state and talkgroup; when the payload has
at least 320 bytes the 160 samples are read little-endian from its first 320
bytes (excess truncated), and when it is shorter than 320 bytes all 160
samples are zero — the supplied bytes are ignored. -/
theorem c9_usrp_egress_samples (msg : AudioMessage) :
    (sendToUSRPVoice msg).header =
      ⟨usrpMagic, msg.sequenceNum, 0, if msg.pttActive then 1 else 0,
        msg.talkGroup, 0, 0, 0⟩ ∧
    (sendToUSRPVoice msg).audioData.length = 160 ∧
    (320 ≤ msg.data.length →
      ∀ i, i < 160 → (sendToUSRPVoice msg).audioData.getD i 0 =
        int16OfLE (msg.data.getD (2 * i) 0) (msg.data.getD (2 * i + 1) 0)) ∧
    (msg.data.length < 320 →
      (sendToUSRPVoice msg).audioData = List.replicate 160 0) := by
  refine ⟨rfl, by simp [sendToUSRPVoice, pcmToVoiceSamples], ?_, ?_⟩
  · intro hlen i hi
    show (pcmToVoiceSamples msg.data).getD i 0 = _
    have hi' : i < (pcmToVoiceSamples msg.data).length := by
      simp [pcmToVoiceSamples]
      omega
    rw [List.getD_eq_getElem _ _ hi']
    simp only [pcmToVoiceSamples, List.getElem_map, List.getElem_range]
    rw [if_pos ⟨hlen, by omega⟩]
  · intro hlen
    show pcmToVoiceSamples msg.data = List.replicate 160 0
    rw [List.eq_replicate_iff]
    constructor
    · simp [pcmToVoiceSamples]
    · intro b hb
      simp only [pcmToVoiceSamples, List.mem_map, List.mem_range] at hb
      obtain ⟨i, _, rfl⟩ := hb
      rw [if_neg (by omega)]

/-- Witness for the amended C9 at a 2-byte payload. -/
theorem c9_usrp_egress_samples_witness :
    ((sendToUSRPVoice ⟨"a", [1, 0], "pcm", 9, 100, true, 5, [], [], 5⟩).header =
      ⟨usrpMagic, 9, 0, 1, 5, 0, 0, 0⟩ ∧
     (sendToUSRPVoice ⟨"a", [1, 0], "pcm", 9, 100, true, 5, [], [], 5⟩).audioData.length =
       160 ∧
     (320 ≤ ([1, 0] : List Nat).length →
       ∀ i, i < 160 →
         (sendToUSRPVoice ⟨"a", [1, 0], "pcm", 9, 100, true, 5, [], [], 5⟩).audioData.getD
             i 0 =
           int16OfLE (([1, 0] : List Nat).getD (2 * i) 0)
             (([1, 0] : List Nat).getD (2 * i + 1) 0)) ∧
     (([1, 0] : List Nat).length < 320 →
       (sendToUSRPVoice ⟨"a", [1, 0], "pcm", 9, 100, true, 5, [], [], 5⟩).audioData =
         List.replicate 160 0)) ∧
    (sendToUSRPVoice ⟨"a", [1, 0], "pcm", 9, 100, true, 5, [], [], 5⟩).audioData =
      List.replicate 160 0 :=
  ⟨c9_usrp_egress_samples ⟨"a", [1, 0], "pcm", 9, 100, true, 5, [], [], 5⟩,
   (c9_usrp_egress_samples ⟨"a", [1, 0], "pcm", 9, 100, true, 5, [], [], 5⟩).2.2.2
     (by decide)⟩
